import Mathlib

/-!
Shallow embedding of the swagger-rs middleware core (src/add_context.rs,
src/auth.rs, src/make.rs) together with the context-container and
correlation-id provider it depends on.  Middleware services are embedded as
structures whose `inner` field is the wrapped service, itself represented as
a plain function returning `Except` (the resolved value of the future); the
randomness of UUID generation is abstracted as an explicit `fresh` oracle
argument.
-/

set_option autoImplicit false

namespace Swagger

/-! ### Requests and header maps

A hyper request is embedded as its header map (an ordered list of
name/value pairs, names compared case-insensitively) plus a body.  Header
values are byte strings; we represent them as Lean `String`s whose
characters stand for the bytes. -/

/-- A header value: the raw bytes of the value, one `Char` per byte. -/
structure HeaderValue where
  bytes : String
deriving DecidableEq, Repr

/-- An HTTP request: header map and body, the parts the middleware can see. -/
structure Request (B : Type) where
  headers : List (String × HeaderValue)
  body : B
deriving DecidableEq, Repr

/-- An HTTP response, opaque to the middleware: just a body. -/
structure Response (B : Type) where
  body : B
deriving DecidableEq, Repr

/-- Modelled from the external `http` crate (not part of this repository):
a byte is visible ASCII, the condition under which `HeaderValue::to_str`
accepts it. -/
def visibleAscii (c : Char) : Bool :=
  c = Char.ofNat 9 || (32 ≤ c.toNat && c.toNat < 127)

/-- Modelled from the external `http` crate (not part of this repository):
`HeaderValue::to_str` succeeds, returning the value as a string
byte-for-byte, exactly when every byte is visible ASCII. -/
def HeaderValue.to_str (v : HeaderValue) : Option String :=
  if v.bytes.data.all visibleAscii then some v.bytes else none

/-- ASCII lowercasing of one character, for case-insensitive header-name
comparison. -/
def lowerChar (c : Char) : Char :=
  if 65 ≤ c.toNat && c.toNat ≤ 90 then Char.ofNat (c.toNat + 32) else c

/-- ASCII lowercasing of a header name. -/
def lowerName (s : String) : String :=
  ⟨s.data.map lowerChar⟩

/-- Modelled from the external `hyper`/`http` crates (not part of this
repository): `HeaderMap::get` looks a name up case-insensitively and
returns the first value when the header is repeated. -/
def headerLookup (headers : List (String × HeaderValue)) (name : String) :
    Option HeaderValue :=
  (headers.find? (fun h => lowerName h.1 == lowerName name)).map Prod.snd

/-! ### Correlation-id provider (spec §4.1) -/

/-- The designated correlation-id header name. -/
def xSpanIdHeaderName : String := "x-span-id"

/-- A correlation id, an opaque string (`XSpanIdString` in the library). -/
def XSpanIdString : Type := String
deriving instance DecidableEq, Repr for XSpanIdString

/-- Modelled from the spec: `XSpanIdString::get_or_generate` is part of this
repository but not under src/ (only its caller at src/add_context.rs:115
is).  Spec §4.1: look the designated header name up (case-insensitively,
first value if repeated); if found, validly encoded and non-empty, the
identifier is that string value; if absent, empty or invalidly encoded,
synthesize a fresh universally-unique identifier.  The generated UUID is
abstracted as the oracle argument `fresh`. -/
def XSpanIdString.get_or_generate {B : Type} (fresh : String)
    (req : Request B) : XSpanIdString :=
  match (headerLookup req.headers xSpanIdHeaderName).bind HeaderValue.to_str with
  | some s => if s = "" then fresh else s
  | none => fresh

/-! ### Extensible context container (spec §4.2)

Modelled from the spec: the context module (`ContextBuilder`, `EmptyContext`,
the `Push` and `Has` traits) is part of this repository but not under src/
(only its users in add_context.rs and auth.rs are).  Spec §4.2: `push`
consumes the container and returns a new container wrapping the old one plus
the value; `get` at type `V` returns the most recently pushed value of type
`V`, enforced by a capability class resolved at elaboration time. -/

/-- Modelled from the spec: the empty base container, constructible with no
arguments and holding no retrievable types. -/
inductive EmptyContext where
  | mk
deriving DecidableEq, Inhabited, Repr

/-- Modelled from the spec: one frame of the type-indexed context stack: the
pushed value of type `T` plus the previous container of type `C`. -/
structure ContextBuilder (T : Type) (C : Type) where
  head : T
  tail : C
deriving DecidableEq, Repr

/-- Modelled from the spec: `push` consumes the container `c` and returns a
new container that is `c` plus `v`, associated with the type of `v`. -/
def push {C V : Type} (c : C) (v : V) : ContextBuilder V C :=
  ⟨v, c⟩

/-- Modelled from the spec: the capability class "a value of type `V` is
retrievable from a container of type `C`". -/
class Has (V : Type) (C : Type) where
  get : C → V

/-- The innermost frame whose own type matches supplies the value. -/
instance instHasHead (V C : Type) : Has V (ContextBuilder V C) :=
  ⟨ContextBuilder.head⟩

/-- Otherwise delegate to the previous container.  Lower priority, so the
innermost (most recently pushed) matching frame wins. -/
instance (priority := 100) instHasTail (V T C : Type) [Has V C] :
    Has V (ContextBuilder T C) :=
  ⟨fun c => Has.get c.tail⟩

/-! ### Authorization data (src/auth.rs) -/

/-- Authorization scopes (src/auth.rs lines 19-26). -/
inductive Scopes where
  | some (scopes : List String)
  | all
deriving DecidableEq, Repr

/-- Authorization record for an incoming request
(src/auth.rs lines 28-51). -/
structure Authorization where
  subject : String
  scopes : Scopes
  issuer : Option String
deriving DecidableEq, Repr

/-- Modelled from the external `headers` crate: basic-auth credentials are
built from a username and a password (always succeeds). -/
structure Basic where
  username : String
  password : String
deriving DecidableEq, Repr

/-- Modelled from the external `headers` crate: a bearer token. -/
structure Bearer where
  token : String
deriving DecidableEq, Repr

/-- Raw authentication data (src/auth.rs lines 53-63). -/
inductive AuthData where
  | Basic (b : Basic)
  | Bearer (b : Bearer)
  | ApiKey (key : String)
deriving DecidableEq, Repr

/-- Modelled from the external `headers` crate:
`Authorization::bearer(token)` builds the header value `"Bearer " ++ token`
and fails exactly when that is not a valid header value, i.e. when the
token contains a byte that is not visible ASCII. -/
def headersAuthorizationBearer (token : String) : Option Bearer :=
  if ("Bearer " ++ token).data.all visibleAscii then some ⟨token⟩ else none

/-- `AuthData::basic` (src/auth.rs lines 66-69): total constructor. -/
def AuthData.basic (username password : String) : AuthData :=
  AuthData.Basic ⟨username, password⟩

/-- `AuthData::bearer` (src/auth.rs lines 72-75): the `unwrap` panic is
embedded as `none`; `some` is a normal return. -/
def AuthData.bearer (token : String) : Option AuthData :=
  (headersAuthorizationBearer token).map AuthData.Bearer

/-- `AuthData::apikey` (src/auth.rs lines 77-80): total constructor. -/
def AuthData.apikey (apikey : String) : AuthData :=
  AuthData.ApiKey apikey

/-- `api_key_from_header` (src/auth.rs lines 223-229):
`headers.get(header).and_then(|v| v.to_str().ok()).map(to_string)`. -/
def api_key_from_header (headers : List (String × HeaderValue))
    (header : String) : Option String :=
  (headerLookup headers header).bind HeaderValue.to_str

/-! ### Context-injection middleware (src/add_context.rs) -/

/-- `AddContextService<T, C>` (src/add_context.rs lines 63-72): wraps an
inner service. -/
structure AddContextService (S : Type) where
  inner : S

/-- `AddContextService::new` (src/add_context.rs lines 94-100). -/
def AddContextService.new {S : Type} (inner : S) : AddContextService S :=
  ⟨inner⟩

/-- `impl Clone for AddContextService` (src/add_context.rs lines 74-86):
clones the inner service (value semantics: the same value). -/
def AddContextService.clone {S : Type} (self : AddContextService S) :
    AddContextService S :=
  { inner := self.inner }

/-- `AddContextService::call` (src/add_context.rs lines 114-119): derive the
x-span-id, push it onto the default base context, forward the pair to the
inner service.  The inner service is a function from (request, context) to
the resolved value of its future. -/
def AddContextService.call {B C E R : Type} [Inhabited C]
    (self : AddContextService (Request B × ContextBuilder XSpanIdString C → Except E R))
    (fresh : String) (req : Request B) : Except E R :=
  let x_span_id := XSpanIdString.get_or_generate fresh req
  let context := push (default : C) x_span_id
  self.inner (req, context)

/-- `AddContextMakeService<T, C>` (src/add_context.rs lines 12-20): wraps an
inner make-service. -/
structure AddContextMakeService (F : Type) where
  inner : F

/-- `AddContextMakeService::call` (src/add_context.rs lines 49-55):
`inner.call(target).map(|s| Ok(AddContextService::new(s?)))`. -/
def AddContextMakeService.call {Target E S : Type}
    (self : AddContextMakeService (Target → Except E S)) (target : Target) :
    Except E (AddContextService S) :=
  match self.inner target with
  | Except.ok s => Except.ok (AddContextService.new s)
  | Except.error e => Except.error e

/-! ### Stub identity middleware (src/auth.rs) -/

/-- `AllowAllAuthenticator<Inner, RC, ReqBody, RespBody>`
(src/auth.rs lines 146-154). -/
structure AllowAllAuthenticator (S : Type) where
  inner : S
  subject : String

/-- `AllowAllAuthenticator::new` (src/auth.rs lines 164-170). -/
def AllowAllAuthenticator.new {S : Type} (inner : S) (subject : String) :
    AllowAllAuthenticator S :=
  ⟨inner, subject⟩

/-- `impl Clone for AllowAllAuthenticator` (src/auth.rs lines 173-188):
clones the inner service and the subject (value semantics). -/
def AllowAllAuthenticator.clone {S : Type} (self : AllowAllAuthenticator S) :
    AllowAllAuthenticator S :=
  { inner := self.inner, subject := self.subject }

/-- `AllowAllAuthenticator::call` (src/auth.rs lines 204-214): push
`Some(Authorization{subject, scopes: All, issuer: None})` onto the context
and forward (request, new context) to the inner service. -/
def AllowAllAuthenticator.call {B RC E RB : Type}
    (self : AllowAllAuthenticator
      (Request B × ContextBuilder (Option Authorization) RC → Except E (Response RB)))
    (req : Request B × RC) : Except E (Response RB) :=
  let (request, context) := req
  let context := push context (some
    { subject := self.subject, scopes := Scopes.all, issuer := none })
  self.inner (request, context)

/-- `MakeAllowAllAuthenticator` (src/auth.rs lines 91-101). -/
structure MakeAllowAllAuthenticator (F : Type) where
  inner : F
  subject : String

/-- `MakeAllowAllAuthenticator::call` (src/auth.rs lines 133-140):
`inner.call(target).map(|s| Ok(AllowAllAuthenticator::new(s?, subject)))`. -/
def MakeAllowAllAuthenticator.call {Target E S : Type}
    (self : MakeAllowAllAuthenticator (Target → Except E S)) (target : Target) :
    Except E (AllowAllAuthenticator S) :=
  match self.inner target with
  | Except.ok s => Except.ok (AllowAllAuthenticator.new s self.subject)
  | Except.error e => Except.error e

/-! ### Service-factory adapter (src/make.rs) -/

/-- `IntoMakeService<S>` (src/make.rs lines 6-9): wraps one
already-constructed service. -/
structure IntoMakeService (S : Type) where
  service : S

/-- `IntoMakeService::new` (src/make.rs lines 11-16). -/
def IntoMakeService.new {S : Type} (service : S) : IntoMakeService S :=
  ⟨service⟩

/-- `IntoMakeService::call` (src/make.rs lines 26-28):
`ready(Ok(self.service.clone()))`, error type `Infallible` (`Empty`). -/
def IntoMakeService.call {S T : Type} (self : IntoMakeService S) (_target : T) :
    Except Empty S :=
  Except.ok self.service

/-! ### Claim theorems -/

/-- Claim C1: `AddContextService::call` derives a correlation id from the
request, builds the default base context, pushes the correlation id onto it
producing a one-frame context, and forwards exactly the pair
(request, context) to the inner service, returning the inner result
unchanged. -/
theorem addContextService_call_spec {B C E R : Type} [Inhabited C]
    (self : AddContextService
      (Request B × ContextBuilder XSpanIdString C → Except E R))
    (fresh : String) (req : Request B) :
    self.call fresh req =
      self.inner (req, push (default : C)
        (XSpanIdString.get_or_generate fresh req)) :=
  rfl

/-- Claim C2: correlation-id derivation is total; a present, validly
encoded, non-empty header value is taken byte-for-byte; an absent, invalid
or empty one makes the derivation fall back to the freshly generated id;
the lookup is case-insensitive in the header name and takes the first value
of a repeated header. -/
theorem get_or_generate_spec :
    (∀ (B : Type) (fresh : String) (req : Request B) (v : HeaderValue)
        (s : String),
      headerLookup req.headers xSpanIdHeaderName = some v →
      HeaderValue.to_str v = some s → s ≠ "" →
      XSpanIdString.get_or_generate fresh req = v.bytes) ∧
    (∀ (B : Type) (fresh : String) (req : Request B),
      headerLookup req.headers xSpanIdHeaderName = none →
      XSpanIdString.get_or_generate fresh req = fresh) ∧
    (∀ (B : Type) (fresh : String) (req : Request B) (v : HeaderValue),
      headerLookup req.headers xSpanIdHeaderName = some v →
      HeaderValue.to_str v = none →
      XSpanIdString.get_or_generate fresh req = fresh) ∧
    (∀ (B : Type) (fresh : String) (req : Request B) (v : HeaderValue),
      headerLookup req.headers xSpanIdHeaderName = some v →
      HeaderValue.to_str v = some "" →
      XSpanIdString.get_or_generate fresh req = fresh) ∧
    (∀ (headers : List (String × HeaderValue)) (n₁ n₂ : String),
      lowerName n₁ = lowerName n₂ →
      headerLookup headers n₁ = headerLookup headers n₂) ∧
    (∀ (name : String) (v₁ v₂ : HeaderValue) (rest : List (String × HeaderValue)),
      headerLookup ((name, v₁) :: (name, v₂) :: rest) name = some v₁) := by
  refine ⟨?_, ?_, ?_, ?_, ?_, ?_⟩
  · intro B fresh req v s hv hs hne
    have hb : s = v.bytes := by
      unfold HeaderValue.to_str at hs
      split at hs
      · exact (Option.some.inj hs).symm
      · exact absurd hs (by simp)
    unfold XSpanIdString.get_or_generate
    rw [hv]
    simp only [Option.some_bind, hs]
    rw [if_neg hne, hb]
  · intro B fresh req hv
    unfold XSpanIdString.get_or_generate
    rw [hv]
    rfl
  · intro B fresh req v hv hs
    unfold XSpanIdString.get_or_generate
    rw [hv]
    simp only [Option.some_bind, hs]
  · intro B fresh req v hv hs
    unfold XSpanIdString.get_or_generate
    rw [hv]
    simp [Option.some_bind, hs]
  · intro headers n₁ n₂ h
    unfold headerLookup
    simp only [h]
  · intro name v₁ v₂ rest
    unfold headerLookup
    simp [List.find?]

/-- Claim C2 witness: a request carrying `X-Span-Id: abc-123` derives
exactly the id `abc-123`. -/
theorem get_or_generate_spec_witness :
    XSpanIdString.get_or_generate "u"
      (⟨[("X-Span-Id", ⟨"abc-123"⟩)], ()⟩ : Request Unit) = "abc-123" :=
  get_or_generate_spec.1 Unit "u" ⟨[("X-Span-Id", ⟨"abc-123"⟩)], ()⟩
    ⟨"abc-123"⟩ "abc-123" (by decide) (by decide) (by decide)

/-- Claim C3: `get` after `push c v` at the type of `v` returns `v`;
pushing two values of the same type in sequence makes `get` return only the
second (shadowing); and a later frame of a different type does not hide an
earlier value. -/
theorem context_push_get_spec :
    (∀ (V C : Type) (c : C) (v : V), (Has.get (push c v) : V) = v) ∧
    (∀ (V C : Type) (c : C) (v₁ v₂ : V),
      (Has.get (push (push c v₁) v₂) : V) = v₂) ∧
    (∀ (V W C : Type) (c : C) (v : V) (w : W),
      (Has.get (push (push c v) w) : V) = v) :=
  ⟨fun _ _ _ _ => rfl, fun _ _ _ _ _ => rfl, fun _ _ _ _ _ _ => rfl⟩

/-- Claim C4: `AllowAllAuthenticator::call` pushes exactly the frame
`Some(Authorization{subject, scopes: All, issuer: None})` onto the context,
independently of the request, and forwards (request, extended context) to
the inner service. -/
theorem allowAllAuthenticator_call_spec {B RC E RB : Type}
    (self : AllowAllAuthenticator
      (Request B × ContextBuilder (Option Authorization) RC →
        Except E (Response RB)))
    (request : Request B) (context : RC) :
    self.call (request, context) =
      self.inner (request, push context
        (some { subject := self.subject, scopes := Scopes.all, issuer := none })) :=
  rfl

/-- Claim C5: the three middleware calls are pure error pass-throughs: each
resolves to `Err(e)` exactly when the inner factory or service does, with
`e` unchanged, and on inner success the result is the inner result wrapped
(or forwarded) as specified. -/
theorem middleware_error_passthrough :
    (∀ (Target E S : Type) (self : AddContextMakeService (Target → Except E S))
        (t : Target),
      (∀ e : E, self.call t = Except.error e ↔ self.inner t = Except.error e) ∧
      (∀ s : S, self.call t = Except.ok (AddContextService.new s) ↔
        self.inner t = Except.ok s)) ∧
    (∀ (Target E S : Type)
        (self : MakeAllowAllAuthenticator (Target → Except E S)) (t : Target),
      (∀ e : E, self.call t = Except.error e ↔ self.inner t = Except.error e) ∧
      (∀ s : S, self.call t = Except.ok (AllowAllAuthenticator.new s self.subject) ↔
        self.inner t = Except.ok s)) ∧
    (∀ (B RC E RB : Type)
        (self : AllowAllAuthenticator
          (Request B × ContextBuilder (Option Authorization) RC →
            Except E (Response RB)))
        (r : Request B) (c : RC) (e : E),
      self.call (r, c) = Except.error e ↔
        self.inner (r, push c
          (some { subject := self.subject, scopes := Scopes.all, issuer := none })) =
          Except.error e) := by
  refine ⟨?_, ?_, ?_⟩
  · intro Target E S self t
    constructor
    · intro e
      unfold AddContextMakeService.call
      cases h : self.inner t <;> simp [h]
    · intro s
      unfold AddContextMakeService.call
      cases h : self.inner t <;>
        simp [h, AddContextService.new, AddContextService.mk.injEq]
  · intro Target E S self t
    constructor
    · intro e
      unfold MakeAllowAllAuthenticator.call
      cases h : self.inner t <;> simp [h]
    · intro s
      unfold MakeAllowAllAuthenticator.call
      cases h : self.inner t <;>
        simp [h, AllowAllAuthenticator.new, AllowAllAuthenticator.mk.injEq]
  · intro B RC E RB self r c e
    exact Iff.rfl

/-- Claim C6: `IntoMakeService::call` always succeeds immediately with the
wrapped service, ignores the target, and its `Empty` error type makes
failure impossible. -/
theorem intoMakeService_call_spec (S T : Type) (self : IntoMakeService S) :
    (∀ t : T, self.call t = Except.ok self.service) ∧
    (∀ t₁ t₂ : T, self.call t₁ = self.call t₂) ∧
    (∀ (t : T) (e : Empty), self.call t ≠ Except.error e) :=
  ⟨fun _ => rfl, fun _ _ => rfl, fun _ e => e.elim⟩

/-- An inner service that reports the correlation id it was handed, used to
observe what `AddContextService::call` forwards. -/
def ctxObserver :
    Request Unit × ContextBuilder XSpanIdString EmptyContext →
      Except Unit XSpanIdString :=
  fun p => Except.ok p.2.head

/-- Claim C7 counterexample: `AddContextService::call` does inspect the
request's headers: two requests with equal bodies, differing only in the
correlation-id header, are forwarded with different contexts. -/
theorem addContext_inspects_headers_counterexample :
    (⟨[("x-span-id", ⟨"abc"⟩)], ()⟩ : Request Unit).body =
      (⟨[], ()⟩ : Request Unit).body ∧
    (AddContextService.new ctxObserver).call "fresh"
        (⟨[("x-span-id", ⟨"abc"⟩)], ()⟩ : Request Unit) ≠
      (AddContextService.new ctxObserver).call "fresh"
        (⟨[], ()⟩ : Request Unit) := by
  refine ⟨rfl, ?_⟩
  intro h
  rw [show (AddContextService.new ctxObserver).call "fresh"
        (⟨[("x-span-id", ⟨"abc"⟩)], ()⟩ : Request Unit) =
        Except.ok "abc" from rfl,
      show (AddContextService.new ctxObserver).call "fresh"
        (⟨[], ()⟩ : Request Unit) = Except.ok "fresh" from rfl] at h
  exact absurd (Except.ok.inj h) (by decide)

/-- Claim C7 (amended): the request forwarded to the inner service is the
very request received, unchanged, and neither service mutates it; the stub
identity service ignores the request's content entirely; the
context-injection service reads the request's headers only to derive the
correlation id, and its only further effect is building the context. -/
theorem request_forwarded_unchanged :
    (∀ (B C E R : Type) [Inhabited C]
        (self : AddContextService
          (Request B × ContextBuilder XSpanIdString C → Except E R))
        (fresh : String) (req : Request B),
      self.call fresh req =
        self.inner (req, push (default : C)
          (XSpanIdString.get_or_generate fresh req))) ∧
    (∀ (B : Type) (fresh : String) (r₁ r₂ : Request B),
      r₁.headers = r₂.headers →
      XSpanIdString.get_or_generate fresh r₁ =
        XSpanIdString.get_or_generate fresh r₂) ∧
    (∀ (B RC E RB : Type)
        (self : AllowAllAuthenticator
          (Request B × ContextBuilder (Option Authorization) RC →
            Except E (Response RB)))
        (r : Request B) (c : RC),
      self.call (r, c) =
        self.inner (r, push c
          (some { subject := self.subject, scopes := Scopes.all,
                  issuer := none }))) := by
  refine ⟨fun _ _ _ _ _ _ _ _ => rfl, ?_, fun _ _ _ _ _ _ _ => rfl⟩
  intro B fresh r₁ r₂ h
  unfold XSpanIdString.get_or_generate
  rw [h]

/-- Claim C7 (amended) witness: the derived correlation id depends only on
the headers, at a concrete pair of requests differing only in body. -/
theorem request_forwarded_unchanged_witness :
    XSpanIdString.get_or_generate "f" (⟨[], 0⟩ : Request Nat) =
      XSpanIdString.get_or_generate "f" (⟨[], 1⟩ : Request Nat) :=
  request_forwarded_unchanged.2.1 Nat "f" ⟨[], 0⟩ ⟨[], 1⟩ rfl

/-- Claim C8: the services produced by the middleware factories are
duplicable: a clone equals the original — same inner service handle, same
configured subject — and behaves identically on every input. -/
theorem middleware_clone_spec :
    (∀ (S : Type) (self : AddContextService S),
      self.clone = self ∧ self.clone.inner = self.inner) ∧
    (∀ (S : Type) (self : AllowAllAuthenticator S),
      self.clone = self ∧ self.clone.inner = self.inner ∧
        self.clone.subject = self.subject) ∧
    (∀ (B C E R : Type) [Inhabited C]
        (self : AddContextService
          (Request B × ContextBuilder XSpanIdString C → Except E R))
        (fresh : String) (req : Request B),
      self.clone.call fresh req = self.call fresh req) ∧
    (∀ (B RC E RB : Type)
        (self : AllowAllAuthenticator
          (Request B × ContextBuilder (Option Authorization) RC →
            Except E (Response RB)))
        (p : Request B × RC),
      self.clone.call p = self.call p) :=
  ⟨fun _ _ => ⟨rfl, rfl⟩, fun _ _ => ⟨rfl, rfl, rfl⟩,
    fun _ _ _ _ _ _ _ _ => rfl, fun _ _ _ _ _ _ => rfl⟩

/-- Claim C9: `AuthData::bearer` returns normally exactly for tokens whose
`Bearer` header value is all visible ASCII, and hits its `unwrap` (embedded
as `none`) on any other token, e.g. one containing a control character;
`AuthData::basic` and `AuthData::apikey` are total constructors. -/
theorem authData_bearer_spec :
    (∀ token : String,
      (AuthData.bearer token).isSome =
        ("Bearer " ++ token).data.all visibleAscii) ∧
    AuthData.bearer "a\nb" = none ∧
    (∀ token : String, ("Bearer " ++ token).data.all visibleAscii = true →
      AuthData.bearer token = some (AuthData.Bearer ⟨token⟩)) ∧
    (∀ u p : String, AuthData.basic u p = AuthData.Basic ⟨u, p⟩) ∧
    (∀ k : String, AuthData.apikey k = AuthData.ApiKey k) := by
  refine ⟨?_, by decide, ?_, fun _ _ => rfl, fun _ => rfl⟩
  · intro token
    unfold AuthData.bearer headersAuthorizationBearer
    cases h : ("Bearer " ++ token).data.all visibleAscii <;> simp [h]
  · intro token h
    unfold AuthData.bearer headersAuthorizationBearer
    rw [if_pos h]
    rfl

/-- Claim C9 witness: a well-formed token is accepted. -/
theorem authData_bearer_spec_witness :
    AuthData.bearer "token123" = some (AuthData.Bearer ⟨"token123"⟩) :=
  authData_bearer_spec.2.2.1 "token123" (by decide)

/-- Claim C10: `api_key_from_header` is total and returns `some s` exactly
when the named header is present (case-insensitively, first value if
repeated) and its value is convertible to a string — in which case `s` is
that value — and `none` otherwise. -/
theorem api_key_from_header_spec (headers : List (String × HeaderValue))
    (header : String) :
    (∀ s : String,
      api_key_from_header headers header = some s ↔
        ∃ v : HeaderValue, headerLookup headers header = some v ∧
          v.bytes = s ∧ v.bytes.data.all visibleAscii = true) ∧
    (api_key_from_header headers header = none ↔
      headerLookup headers header = none ∨
        ∃ v : HeaderValue, headerLookup headers header = some v ∧
          v.bytes.data.all visibleAscii = false) := by
  constructor
  · intro s
    unfold api_key_from_header
    cases h : headerLookup headers header with
    | none => simp [h]
    | some v =>
      simp only [h, Option.some_bind]
      unfold HeaderValue.to_str
      constructor
      · intro hs
        split at hs
        · exact ⟨v, rfl, Option.some.inj hs, by assumption⟩
        · exact absurd hs (by simp)
      · rintro ⟨w, hw, hbs, hall⟩
        cases Option.some.inj hw
        rw [if_pos hall, hbs]
  · unfold api_key_from_header
    cases h : headerLookup headers header with
    | none => simp [h]
    | some v =>
      simp only [h, Option.some_bind]
      unfold HeaderValue.to_str
      constructor
      · intro hs
        split at hs
        · exact absurd hs (by simp)
        · exact Or.inr ⟨v, rfl, by simp_all⟩
      · rintro (hc | ⟨w, hw, hall⟩)
        · exact absurd hc (by simp)
        · cases Option.some.inj hw
          rw [if_neg (by simp [hall])]

end Swagger
